import Mathlib

/-!
Verification of the pydm widget-toolkit specification against a shallow
embedding of the repository's code.

The repository snapshot under verification contains the unit tests
(`pydm/tests/widgets/test_drawing.py`, `pydm/tests/widgets/test_lineedit.py`)
and the image-processing example (`examples/image_processing/image_view.py`).
The widget implementation modules `pydm/widgets/drawing.py` and
`pydm/widgets/line_edit.py` are exercised by those tests but are not part of
the snapshot, so their behaviour is modelled from the specification document,
with every concrete expectation pinned by the unit tests.  Python floats are
embedded as rationals (ℚ), Python exceptions as `Except`, and calls to the
`logging` module as explicit lists of log records returned by the functions
that log.
-/

namespace Pydm

/-- Levels of the Python `logging` module that appear in the spec. -/
inductive LogLevel
  | WARNING
  | ERROR
deriving DecidableEq, Repr

/-- One record emitted through the Python `logging` module. -/
structure LogRecord where
  level : LogLevel
  text : String
deriving DecidableEq, Repr

/-- Qt pen styles used by the drawing widgets. -/
inductive PenStyle
  | NoPen
  | SolidLine
  | DashLine
deriving DecidableEq, Repr

/-- Qt brush styles used by the drawing widgets. -/
inductive BrushStyle
  | SolidPattern
  | Dense3Pattern
deriving DecidableEq, Repr

/-- Modelled from the spec: `deg_to_qt` of `pydm/widgets/drawing.py` (module not
in the snapshot).  The spec states the degree-to-toolkit-angle conversion is
linear with factor 16; `test_deg_to_qt` pins `deg_to_qt(1) = 16`. -/
def deg_to_qt (deg : ℚ) : ℚ :=
  deg * 16

/-- Modelled from the spec: `qt_to_deg` of `pydm/widgets/drawing.py` (module not
in the snapshot).  The inverse conversion divides by 16 (`test_qt_to_deg`). -/
def qt_to_deg (deg : ℚ) : ℚ :=
  deg / 16

/-- Modelled from the spec: the mutable attribute state of a `PyDMDrawing`
widget (`pydm/widgets/drawing.py` is not in the snapshot).  The fields are the
attributes the drawing tests read and write: geometry (`width()`, `height()`),
`_rotation`, `_pen_style`, `_pen_width`, `_pen_color` and the brush style. -/
structure DrawingState where
  width : ℚ
  height : ℚ
  rotation : ℚ
  pen_style : PenStyle
  pen_width : ℚ
  pen_color : ℕ × ℕ × ℕ
  brush_style : BrushStyle
deriving DecidableEq, Repr

/-- Modelled from the spec: the widget state after `PyDMDrawing()` construction,
as pinned by `test_pydmdrawing_construct` (`_rotation == 0.0`, pen style
`Qt.NoPen`, `_pen_width == 0`, `_pen_color == QColor(0, 0, 0)`, solid brush). -/
def default_drawing : DrawingState where
  width := 100
  height := 100
  rotation := 0
  pen_style := PenStyle.NoPen
  pen_width := 0
  pen_color := (0, 0, 0)
  brush_style := BrushStyle.SolidPattern

/-- Modelled from the spec: the host math library (`math.sin`, `math.cos`,
`math.pi`) used by the geometry helpers of `pydm/widgets/drawing.py`.  The
spec only constrains the helpers to be deterministic pure functions of their
numeric inputs, so the trigonometric primitives are kept abstract. -/
structure FloatMath where
  sin : ℚ → ℚ
  cos : ℚ → ℚ
  pi : ℚ

/-- `math.radians`: degrees to radians via the math library's `pi`. -/
def radians (M : FloatMath) (deg : ℚ) : ℚ :=
  deg * M.pi / 180

/-- Modelled from the spec: `PyDMDrawing.has_border` (module not in the
snapshot).  `test_pydmdrawing_has_border` pins: a border exists iff the pen
style is not `Qt.NoPen` and the pen width is greater than 0. -/
def has_border_calc (ps : PenStyle) (pw : ℚ) : Bool :=
  ps != PenStyle.NoPen && decide (0 < pw)

/-- `has_border` as a method reading the widget state. -/
def has_border (s : DrawingState) : Bool :=
  has_border_calc s.pen_style s.pen_width

/-- The error record logged for a non-positive width. -/
def invalid_width_record : LogRecord :=
  ⟨LogLevel.ERROR, "Invalid width. The value must be greater than 0"⟩

/-- The error record logged for a non-positive height. -/
def invalid_height_record : LogRecord :=
  ⟨LogLevel.ERROR, "Invalid height. The value must be greater than 0"⟩

/-- Modelled from the spec: `PyDMDrawing.get_inner_max` (module not in the
snapshot), the largest inner rectangle of the widget rectangle under the
current rotation, a deterministic pure function of width, height and rotation.
Non-positive widths or heights are rejected with a logged error instead of an
exception (spec section 7); the returned value is `none` in that case.  The
geometry (normalise the rotation angle to `[0, pi/2]`, scale both sides by
`w0 / (h0 * sin ang + w0 * cos ang)` where `w0` is the smaller side) matches
the expectations of `test_pydmdrawing_get_inner_max`. -/
def get_inner_max_calc (M : FloatMath) (width height rotation : ℚ) :
    Option (ℚ × ℚ) × List LogRecord :=
  let logs := (if width ≤ 0 then [invalid_width_record] else []) ++
    (if height ≤ 0 then [invalid_height_record] else [])
  if width ≤ 0 ∨ height ≤ 0 then
    (none, logs)
  else
    let angle := radians M rotation
    let w0 := if width ≤ height then width else height
    let h0 := if width ≤ height then height else width
    let ang0 := angle - (⌊(angle + M.pi) / (2 * M.pi)⌋ : ℚ) * (2 * M.pi)
    let ang1 := |ang0|
    let ang := if M.pi / 2 < ang1 then M.pi - ang1 else ang1
    let c := w0 / (h0 * M.sin ang + w0 * M.cos ang)
    if width ≤ height then
      (some (w0 * c, h0 * c), logs)
    else
      (some (h0 * c, w0 * c), logs)

/-- `get_inner_max` as a method reading the widget state. -/
def get_inner_max (M : FloatMath) (s : DrawingState) :
    Option (ℚ × ℚ) × List LogRecord :=
  get_inner_max_calc M s.width s.height s.rotation

/-- Modelled from the spec: `PyDMDrawing.get_bounds(maxsize, force_no_pen)`
(module not in the snapshot), the rotated bounding box of the drawable area, a
deterministic pure function of width, height, rotation, pen width and border
flag.  When `maxsize` holds the width and height come from `get_inner_max`;
when a border is drawn and the pen is not suppressed the bounds shrink by the
pen width on every side.  The arithmetic matches the expectations of
`test_pydmdrawing_get_bounds`. -/
def get_bounds_calc (M : FloatMath) (width height rotation : ℚ) (ps : PenStyle)
    (pw : ℚ) (maxsize force_no_pen : Bool) : Option (ℚ × ℚ × ℚ × ℚ) :=
  let wh : Option (ℚ × ℚ) :=
    if maxsize then (get_inner_max_calc M width height rotation).1
    else some (width, height)
  match wh with
  | none => none
  | some (w, h) =>
    let xc := w * (1 / 2)
    let yc := h * (1 / 2)
    if has_border_calc ps pw && !force_no_pen then
      some (max 0 pw - xc, max 0 pw - yc, max 0 (w - 2 * pw), max 0 (h - 2 * pw))
    else
      some (-xc, -yc, w, h)

/-- `get_bounds` as a method reading the widget state. -/
def get_bounds (M : FloatMath) (s : DrawingState) (maxsize force_no_pen : Bool) :
    Option (ℚ × ℚ × ℚ × ℚ) :=
  get_bounds_calc M s.width s.height s.rotation s.pen_style s.pen_width
    maxsize force_no_pen

/-- A call of the method `get_bounds` on a widget: the result paired with the
state of the widget after the call. -/
def get_bounds_method (M : FloatMath) (s : DrawingState)
    (maxsize force_no_pen : Bool) : Option (ℚ × ℚ × ℚ × ℚ) × DrawingState :=
  (get_bounds M s maxsize force_no_pen, s)

/-- A call of the method `get_inner_max` on a widget: the result and logs
paired with the state of the widget after the call. -/
def get_inner_max_method (M : FloatMath) (s : DrawingState) :
    (Option (ℚ × ℚ) × List LogRecord) × DrawingState :=
  (get_inner_max M s, s)

/-- Modelled from the spec: the `penWidth` property setter of `PyDMDrawing`
(module not in the snapshot).  `test_pydmdrawing_properties_and_setters` pins
that assigning a negative value is ignored and leaves the stored value
unchanged. -/
def set_penWidth (s : DrawingState) (new_width : ℚ) : DrawingState :=
  if new_width < 0 then s else { s with pen_width := new_width }

/-- Modelled from the spec: the `penColor` property setter of `PyDMDrawing`. -/
def set_penColor (s : DrawingState) (c : ℕ × ℕ × ℕ) : DrawingState :=
  { s with pen_color := c }

/-- Modelled from the spec: the `rotation` property setter of `PyDMDrawing`. -/
def set_rotation (s : DrawingState) (r : ℚ) : DrawingState :=
  { s with rotation := r }

/-- Modelled from the spec: the `penStyle` property setter of `PyDMDrawing`. -/
def set_penStyle (s : DrawingState) (p : PenStyle) : DrawingState :=
  { s with pen_style := p }

/-- Modelled from the spec: the `brush` property setter of `PyDMDrawing`. -/
def set_brush (s : DrawingState) (b : BrushStyle) : DrawingState :=
  { s with brush_style := b }

/-- One designer property assignment on a `PyDMDrawing` widget, as performed by
`test_pydmdrawing_properties_and_setters`. -/
inductive PropAssign
  | penWidth (v : ℚ)
  | penColor (c : ℕ × ℕ × ℕ)
  | rotation (v : ℚ)
  | penStyle (p : PenStyle)
  | brush (b : BrushStyle)

/-- Apply one property assignment to the widget state. -/
def apply_assign (s : DrawingState) : PropAssign → DrawingState
  | PropAssign.penWidth v => set_penWidth s v
  | PropAssign.penColor c => set_penColor s c
  | PropAssign.rotation v => set_rotation s v
  | PropAssign.penStyle p => set_penStyle s p
  | PropAssign.brush b => set_brush s b

/-- Apply a sequence of property assignments, left to right. -/
def apply_assigns (s : DrawingState) (l : List PropAssign) : DrawingState :=
  l.foldl apply_assign s

/-- C1: the degree-to-Qt-angle conversion is linear with factor 16, its
inverse divides by 16, the round trip is the identity, and the inverse maps
`-32` to `-2` and `16.16` to `1.01`. -/
theorem deg_qt_conversion_linear (d q : ℚ) :
    deg_to_qt d = 16 * d ∧ qt_to_deg q = q / 16 ∧
    qt_to_deg (deg_to_qt d) = d ∧
    qt_to_deg (-32) = -2 ∧ qt_to_deg (16.16) = 1.01 := by
  refine ⟨by rw [deg_to_qt, mul_comm], rfl, ?_, by norm_num [qt_to_deg], ?_⟩
  · rw [deg_to_qt, qt_to_deg]
    ring
  · rw [qt_to_deg]
    norm_num

/-- A concrete stand-in for the floating-point math library, used only to
instantiate theorems at concrete inputs. -/
def mathId : FloatMath where
  sin := fun _ => 0
  cos := fun _ => 1
  pi := 314159 / 100000

/-- A concrete drawing-widget state with a border. -/
def drawing_s1 : DrawingState where
  width := 2553 / 100
  height := 207 / 20
  rotation := 45
  pen_style := PenStyle.SolidLine
  pen_width := 2
  pen_color := (0, 0, 0)
  brush_style := BrushStyle.SolidPattern

/-- The same geometry and pen as `drawing_s1` but a different pen colour and
brush: inputs `get_bounds` and `get_inner_max` must not depend on. -/
def drawing_s2 : DrawingState where
  width := 2553 / 100
  height := 207 / 20
  rotation := 45
  pen_style := PenStyle.SolidLine
  pen_width := 2
  pen_color := (255, 0, 0)
  brush_style := BrushStyle.Dense3Pattern

/-- A drawing-widget state with an invalid (zero) width. -/
def drawing_zero_width : DrawingState :=
  { default_drawing with width := 0, height := 207 / 20 }

/-- C2: `get_bounds` and `get_inner_max` are deterministic pure functions:
two widget states that agree on width, height, rotation, pen style and pen
width produce identical results (for `get_inner_max`, already under agreement
on width, height and rotation), and a call leaves the widget state exactly as
it was. -/
theorem get_bounds_inner_max_pure (M : FloatMath) (s1 s2 : DrawingState)
    (m f : Bool)
    (hw : s1.width = s2.width) (hh : s1.height = s2.height)
    (hr : s1.rotation = s2.rotation) (hps : s1.pen_style = s2.pen_style)
    (hpw : s1.pen_width = s2.pen_width) :
    get_bounds_method M s1 m f = (get_bounds M s2 m f, s1) ∧
    get_inner_max_method M s1 = (get_inner_max M s2, s1) := by
  constructor
  · rw [get_bounds_method, get_bounds, get_bounds, hw, hh, hr, hps, hpw]
  · rw [get_inner_max_method, get_inner_max, get_inner_max, hw, hh, hr]

/-- Witness for C2 at concrete inputs: two states differing only in pen colour
and brush style yield the same bounds and inner-max rectangle, and the state
is unchanged by the call. -/
theorem get_bounds_inner_max_pure_witness :
    get_bounds_method mathId drawing_s1 true false =
      (get_bounds mathId drawing_s2 true false, drawing_s1) ∧
    get_inner_max_method mathId drawing_s1 =
      (get_inner_max mathId drawing_s2, drawing_s1) :=
  get_bounds_inner_max_pure mathId drawing_s1 drawing_s2 true false
    rfl rfl rfl rfl rfl

/-- C3: for a non-positive width or height, `get_inner_max` rejects the input:
it returns no rectangle (rather than raising — the function returns normally),
the message `Invalid width. The value must be greater than 0` is logged when
the width is non-positive, the analogous height message is logged when the
height is non-positive, and every record it logs is at ERROR level. -/
theorem get_inner_max_rejects (M : FloatMath) (s : DrawingState)
    (h : s.width ≤ 0 ∨ s.height ≤ 0) :
    (get_inner_max M s).1 = none ∧
    (s.width ≤ 0 → invalid_width_record ∈ (get_inner_max M s).2) ∧
    (s.height ≤ 0 → invalid_height_record ∈ (get_inner_max M s).2) ∧
    (∀ r ∈ (get_inner_max M s).2, r.level = LogLevel.ERROR) := by
  rw [get_inner_max, get_inner_max_calc]
  rw [if_pos h]
  refine ⟨rfl, ?_, ?_, ?_⟩
  · intro hw
    simp [hw]
  · intro hh
    simp [hh]
  · intro r hr
    rcases List.mem_append.mp hr with hm | hm <;> split_ifs at hm <;>
      simp_all [invalid_width_record, invalid_height_record]

/-- Witness for C3 at a concrete input: a widget of width 0 and height 10.35
is rejected by `get_inner_max` with the logged width error. -/
theorem get_inner_max_rejects_witness :
    (get_inner_max mathId drawing_zero_width).1 = none ∧
    (drawing_zero_width.width ≤ 0 →
      invalid_width_record ∈ (get_inner_max mathId drawing_zero_width).2) ∧
    (drawing_zero_width.height ≤ 0 →
      invalid_height_record ∈ (get_inner_max mathId drawing_zero_width).2) ∧
    (∀ r ∈ (get_inner_max mathId drawing_zero_width).2,
      r.level = LogLevel.ERROR) :=
  get_inner_max_rejects mathId drawing_zero_width (Or.inl (by decide))

/-- C8: the pen width of a drawing widget is never negative: it is 0 after
construction, assigning a negative value is ignored leaving the stored value
unchanged, and after every sequence of property assignments starting from the
constructed widget the stored pen width is non-negative. -/
theorem penWidth_nonneg_invariant :
    default_drawing.pen_width = 0 ∧
    (∀ (s : DrawingState) (v : ℚ), v < 0 → set_penWidth s v = s) ∧
    (∀ l : List PropAssign, 0 ≤ (apply_assigns default_drawing l).pen_width) := by
  refine ⟨rfl, ?_, ?_⟩
  · intro s v hv
    rw [set_penWidth, if_pos hv]
  · have step : ∀ (s : DrawingState) (a : PropAssign), 0 ≤ s.pen_width →
        0 ≤ (apply_assign s a).pen_width := by
      intro s a hs
      cases a with
      | penWidth v =>
        rw [apply_assign, set_penWidth]
        split
        · exact hs
        · next hv => exact le_of_not_lt hv
      | penColor c => exact hs
      | rotation v => exact hs
      | penStyle p => exact hs
      | brush b => exact hs
    have general : ∀ (l : List PropAssign) (s : DrawingState),
        0 ≤ s.pen_width → 0 ≤ (apply_assigns s l).pen_width := by
      intro l
      induction l with
      | nil => intro s hs; exact hs
      | cons a t ih => intro s hs; exact ih (apply_assign s a) (step s a hs)
    intro l
    exact general l default_drawing (le_refl 0)

/-- Witness for C8 at concrete inputs: assigning -1 is ignored, and the pen
width stays non-negative after the assignment sequence of the unit test. -/
theorem penWidth_nonneg_invariant_witness :
    set_penWidth default_drawing (-1) = default_drawing ∧
    0 ≤ (apply_assigns default_drawing
      [PropAssign.penWidth 5, PropAssign.penWidth (-1)]).pen_width :=
  ⟨penWidth_nonneg_invariant.2.1 default_drawing (-1) (by decide),
   penWidth_nonneg_invariant.2.2 [PropAssign.penWidth 5, PropAssign.penWidth (-1)]⟩

/-- C9: after setting the pen style and a (non-negative, as in the unit test)
pen width through the designer properties, `has_border` returns `true` exactly
when the pen style is not `NoPen` and the pen width is strictly positive. -/
theorem has_border_iff_pen (s : DrawingState) (style : PenStyle) (w : ℚ)
    (hw : 0 ≤ w) :
    (has_border (set_penWidth (set_penStyle s style) w) = true) ↔
      (style ≠ PenStyle.NoPen ∧ 0 < w) := by
  rw [has_border, set_penWidth]
  rw [if_neg (not_lt.mpr hw)]
  simp [has_border_calc, set_penStyle]

/-- Witness for C9 at concrete inputs: a solid pen of width 1 has a border. -/
theorem has_border_iff_pen_witness :
    (has_border (set_penWidth (set_penStyle default_drawing PenStyle.SolidLine) 1)
        = true) ↔
      (PenStyle.SolidLine ≠ PenStyle.NoPen ∧ (0 : ℚ) < 1) :=
  has_border_iff_pen default_drawing PenStyle.SolidLine 1 (by decide)

/-- The display formats of `pydm/widgets/display_format.py`. -/
inductive DisplayFormat
  | Default
  | String
  | Decimal
  | Exponential
  | Hex
  | Binary
deriving DecidableEq, Repr

/-- Python values flowing through a line-edit channel: ints, floats (embedded
as rationals), strings, numeric arrays, and `None`. -/
inductive PyValue
  | PInt (i : ℤ)
  | PFloat (x : ℚ)
  | PStr (t : String)
  | PArr (a : List ℤ)
  | PNone
deriving DecidableEq, Repr

/-- The Python types a channel can declare. -/
inductive PyType
  | TInt
  | TFloat
  | TStr
  | TArr
  | TNone
deriving DecidableEq, Repr

/-- `type(v)` on an embedded Python value. -/
def typeOf : PyValue → PyType
  | PyValue.PInt _ => PyType.TInt
  | PyValue.PFloat _ => PyType.TFloat
  | PyValue.PStr _ => PyType.TStr
  | PyValue.PArr _ => PyType.TArr
  | PyValue.PNone => PyType.TNone

/-- Python exceptions surfaced by the modelled code. -/
inductive PyError
  | ValueError
deriving DecidableEq, Repr

/-- The numeric content of a value, when it is an int or a float. -/
def pyNumQ : PyValue → Option ℚ
  | PyValue.PInt i => some (i : ℚ)
  | PyValue.PFloat x => some x
  | _ => none

/-- `isinstance(v, (int, float))`. -/
def pyIsNumeric (v : PyValue) : Bool :=
  (pyNumQ v).isSome

/-- The numeric content of a value, defaulting to 0. -/
def ratOf (v : PyValue) : ℚ :=
  (pyNumQ v).getD 0

/-- `int(q)` on a float: truncation toward zero. -/
def ratTrunc (q : ℚ) : ℤ :=
  if 0 ≤ q then ⌊q⌋ else ⌈q⌉

/-- Round to the nearest integer, ties to even, as Python fixed-point
formatting does. -/
def roundHalfEven (q : ℚ) : ℤ :=
  let f : ℤ := ⌊q⌋
  let r : ℚ := q - (f : ℚ)
  if r < 1 / 2 then f
  else if 1 / 2 < r then f + 1
  else if f % 2 = 0 then f else f + 1

/-- Left-pad a digit string with zeros to the given length. -/
def padZeros (len : ℕ) (s : String) : String :=
  String.mk (List.replicate (len - s.length) '0') ++ s

/-- Python `"{:.pf}".format(x)`: fixed-point rendering with `p` digits after
the decimal point. -/
def formatFixed (p : ℕ) (x : ℚ) : String :=
  let scaled : ℤ := roundHalfEven (x * (10 : ℚ) ^ p)
  let a : ℕ := scaled.natAbs
  let ip : ℕ := a / 10 ^ p
  let fp : ℕ := a % 10 ^ p
  (if scaled < 0 then "-" else "") ++ toString ip ++
    (if p = 0 then "" else "." ++ padZeros p (toString fp))

/-- The decimal exponent of a positive rational: the `e` with
`1 ≤ x / 10 ^ e < 10`. -/
def expOfPos (x : ℚ) : ℤ :=
  if 1 ≤ x then (Nat.log 10 (⌊x⌋.toNat) : ℤ)
  else
    let k : ℕ := Nat.log 10 (⌊1 / x⌋.toNat)
    if 1 ≤ x * (10 : ℚ) ^ k then -(k : ℤ) else -((k : ℤ) + 1)

/-- Exponential rendering of a positive rational with `p` mantissa digits,
bumping the exponent when rounding carries the mantissa to 10. -/
def formatExpPos (p : ℕ) (x : ℚ) : String :=
  let e0 : ℤ := expOfPos x
  let m0 : ℚ := x / (10 : ℚ) ^ e0
  let e : ℤ :=
    if ((10 : ℤ) ^ (p + 1) : ℤ) ≤ roundHalfEven (m0 * (10 : ℚ) ^ p) then e0 + 1
    else e0
  formatFixed p (x / (10 : ℚ) ^ e) ++ "e" ++ (if e < 0 then "-" else "+") ++
    padZeros 2 (toString e.natAbs)

/-- Python `"{:.pe}".format(x)`. -/
def formatExp (p : ℕ) (x : ℚ) : String :=
  if x = 0 then formatFixed p 0 ++ "e+00"
  else (if x < 0 then "-" else "") ++ formatExpPos p |x|

/-- The least `k` with `d ∣ 10 ^ k`, when one exists (the denominators of
embedded Python floats factor into 2s and 5s, so the search up to `d`
suffices). -/
def decExpOf (d : ℕ) : Option ℕ :=
  (List.range (d + 1)).find? (fun k => (10 : ℕ) ^ k % d == 0)

/-- Python `str(x)` on a float: the shortest terminating decimal expansion. -/
def pyStrFloat (x : ℚ) : String :=
  match decExpOf x.den with
  | some 0 => toString x.num ++ ".0"
  | some k => formatFixed k x
  | none => formatFixed 17 x

/-- Python `hex(i)`. -/
def pyHex (i : ℤ) : String :=
  (if i < 0 then "-0x" else "0x") ++ String.mk (Nat.toDigits 16 i.natAbs)

/-- Python `bin(i)`. -/
def pyBin (i : ℤ) : String :=
  (if i < 0 then "-0b" else "0b") ++ String.mk (Nat.toDigits 2 i.natAbs)

/-- Python `str(v)` (numpy array rendering uses space separators). -/
def pyStr : PyValue → String
  | PyValue.PInt i => toString i
  | PyValue.PFloat x => pyStrFloat x
  | PyValue.PStr t => t
  | PyValue.PArr a => "[" ++ String.intercalate (" ") (a.map (fun i => toString i)) ++ "]"
  | PyValue.PNone => "None"

/-- Modelled from the spec: the mutable attribute state of a `PyDMLineEdit`
widget (`pydm/widgets/line_edit.py` is not in the snapshot).  The fields are
the attributes the line-edit tests read and write: the channel value and its
declared type, the display format, the formatting parameters precision, scale
and unit with the `showUnits` flag (spec glossary), the computed format
string, the rendered display and the widget text, plus focus, connection,
write-access, enabled/read-only, tooltip and application read-only state. -/
structure LineEditState where
  value : PyValue
  channeltype : PyType
  displayFormat : DisplayFormat
  prec : Option ℕ
  scale : ℚ
  unit : Option String
  showUnits : Bool
  format_string : String
  display : Option String
  text : String
  hasFocus : Bool
  connected : Bool
  write_access : Bool
  enabled : Bool
  readOnly : Bool
  base_tooltip : String
  toolTip : String
  app_read_only : Bool
deriving DecidableEq, Repr

/-- `str(self._prec)`: Python renders a missing precision as `None`. -/
def precStr : Option ℕ → String
  | some n => toString n
  | none => "None"

/-- The unit suffix appended to the format string: present exactly when units
are shown and a non-empty unit is known. -/
def unitSuffix (showU : Bool) (unit : Option String) : String :=
  match unit with
  | some u => if showU && u != "" then " " ++ u else ""
  | none => ""

/-- Modelled from the spec: `PyDMLineEdit.update_format_string` (module not in
the snapshot).  For a numeric value the format string is
`\x7b:.<precision>f\x7d` followed by the unit suffix when units are shown
(`test_apply_conversion` pins `\x7b:.0f\x7d s`). -/
def mk_format_string (s : LineEditState) : String :=
  (if pyIsNumeric s.value then ("\x7b:.") ++ precStr s.prec ++ "f\x7d"
   else ("\x7b\x7d")) ++ unitSuffix s.showUnits s.unit

/-- The state change of `update_format_string`. -/
def update_format_string (s : LineEditState) : LineEditState :=
  { s with format_string := mk_format_string s }

/-- `new_value *= self.channeltype(self._scale)`: the scale is coerced to the
channel type before multiplying, so an int channel truncates the scale.
Strings and arrays are not scaled. -/
def scaleValue (v : PyValue) (ct : PyType) (scale : ℚ) : PyValue :=
  match v with
  | PyValue.PInt i =>
    match ct with
    | PyType.TFloat => PyValue.PFloat ((i : ℚ) * scale)
    | _ => PyValue.PInt (i * ratTrunc scale)
  | PyValue.PFloat x =>
    match ct with
    | PyType.TInt => PyValue.PFloat (x * (ratTrunc scale : ℚ))
    | _ => PyValue.PFloat (x * scale)
  | w => w

/-- `parse_value_for_display` followed by `str()`: the text a value renders to
under a display format and precision, before any unit suffix. -/
def renderV (fmt : DisplayFormat) (p : ℕ) (w : PyValue) : String :=
  match fmt with
  | DisplayFormat.Default =>
    if pyIsNumeric w then formatFixed p (ratOf w) else pyStr w
  | DisplayFormat.String => pyStr w
  | DisplayFormat.Decimal => pyStr w
  | DisplayFormat.Exponential => formatExp p (ratOf w)
  | DisplayFormat.Hex => pyHex ⌊ratOf w⌋
  | DisplayFormat.Binary => pyBin ⌊ratOf w⌋

/-- Python string interpolation of a possibly missing unit. -/
def unitDisplay : Option String → String
  | some u => u
  | none => "None"

/-- Modelled from the spec: `PyDMLineEdit.set_display` (module not in the
snapshot).  Nothing is rendered when the value is `None` or the widget has
focus.  The value is scaled, the format string recomputed; a numeric value in
`Default` format goes through the fixed-point format string — whose
application raises `ValueError` when the precision is missing, since the
specifier is then `\x7b:.Nonef\x7d` — and other formats render through
`parse_value_for_display` with the unit appended when units are shown.  The
rendered text is stored in `_display` and shown as the widget text
(`test_value_change`, `test_set_display`). -/
def set_display (s : LineEditState) : Except PyError LineEditState :=
  if s.value = PyValue.PNone then Except.ok s
  else if s.hasFocus then Except.ok s
  else
    let w := scaleValue s.value s.channeltype s.scale
    let s1 := update_format_string s
    if s1.displayFormat = DisplayFormat.Default ∧ pyIsNumeric w then
      match s1.prec with
      | none => Except.error PyError.ValueError
      | some p =>
        let d := formatFixed p (ratOf w) ++ unitSuffix s1.showUnits s1.unit
        Except.ok { s1 with display := some d, text := d }
    else
      let d := renderV s1.displayFormat (s1.prec.getD 0) w ++
        (if s1.showUnits then " " ++ unitDisplay s1.unit else "")
      Except.ok { s1 with display := some d, text := d }

/-- Modelled from the spec: the `channelValueChanged` slot of `PyDMLineEdit`
(module not in the snapshot): store the new value and its type, then render
the display. -/
def channelValueChanged (s : LineEditState) (v : PyValue) :
    Except PyError LineEditState :=
  set_display { s with value := v, channeltype := typeOf v }

/-- The warning record logged when no initial unit is available. -/
def no_units_warning : LogRecord :=
  ⟨LogLevel.WARNING,
    "Attempting to convert PyDMLineEdit unit, but no initial units supplied"⟩

/-- The warning record logged when no conversion exists between two units. -/
def incompatible_units_warning (u target : String) : LogRecord :=
  ⟨LogLevel.WARNING,
    "Attempting to convert PyDMLineEdit unit, but \x27" ++ u ++
      "\x27 can not be converted to \x27" ++ target ++ "\x27."⟩

/-- Modelled from the spec: `PyDMLineEdit.apply_conversion` (module not in the
snapshot), parameterised by the unit-conversion table `convert` of
`pydm/utilities` (also not in the snapshot; `convert` yields the factor
between two units of the same family and nothing otherwise, per spec section
7).  A missing or empty current unit, or an impossible conversion, is rejected
with a logged warning and no state change; a compatible conversion folds the
factor into the scale, adopts the new unit and re-renders
(`test_apply_conversion`, `test_apply_conversion_wrong_unit`). -/
def apply_conversion (convert : String → String → Option ℚ)
    (s : LineEditState) (unit : String) :
    Except PyError LineEditState × List LogRecord :=
  match s.unit with
  | none => (Except.ok s, [no_units_warning])
  | some u =>
    if u = "" then (Except.ok s, [no_units_warning])
    else
      match convert u unit with
      | some c =>
        let s1 := { s with scale := s.scale * c, unit := some unit }
        let s2 := update_format_string s1
        let s3 := { s2 with hasFocus := false }
        (set_display s3, [])
      | none => (Except.ok s, [incompatible_units_warning u unit])

/-- Modelled from the spec: the `writeAccessChanged` slot of `PyDMLineEdit`
(module not in the snapshot; the snapshot's `test_write_access_changed` pins
the behaviour): record the new write access, keep the widget enabled, make it
read-only exactly when write access is denied, and rebuild the tooltip from
the user tooltip plus a disconnection notice or the reason writing is
denied. -/
def writeAccessChanged (s : LineEditState) (new_write_access : Bool) :
    LineEditState :=
  let s1 := { s with write_access := new_write_access }
  let tip :=
    if !s1.connected then s1.base_tooltip ++ "PV is disconnected."
    else if !new_write_access then
      (if s1.app_read_only then
        s1.base_tooltip ++ "Running PyDM on Read-Only mode."
       else s1.base_tooltip ++ "Access denied by Channel Access Security.")
    else s1.base_tooltip
  { s1 with toolTip := tip, enabled := true, readOnly := !new_write_access }

/-- Whether `needle` is an initial segment of `hay`. -/
def startsWithL (needle hay : List Char) : Bool :=
  match needle, hay with
  | [], _ => true
  | _ :: _, [] => false
  | a :: t1, b :: t2 => a == b && startsWithL t1 t2

/-- Python `needle in hay` on strings, over the character lists. -/
def listSub (hay needle : List Char) : Bool :=
  match hay with
  | [] => needle.isEmpty
  | _ :: tl => startsWithL needle hay || listSub tl needle

/-- The whitespace characters stripped by Python `str.strip()`. -/
def isSpaceChar (c : Char) : Bool :=
  c.toNat == 32 || c.toNat == 9 || c.toNat == 10 || c.toNat == 13

/-- Python `str.strip()`. -/
def pyStrip (t : String) : String :=
  String.mk (((t.data.dropWhile isSpaceChar).reverse.dropWhile isSpaceChar).reverse)

/-- The unit-cleaning step of `send_value`: when units are shown and the unit
occurs in the text, drop the unit's length from the end and strip. -/
def stripUnits (s : LineEditState) (t : String) : String :=
  match s.unit with
  | some u =>
    if s.showUnits && u != "" && listSub t.data u.data then
      pyStrip (String.mk (t.data.take (t.data.length - u.data.length)))
    else t
  | none => t

/-- The numeric value of a digit character in bases up to 16 (99 when the
character is no digit). -/
def digitVal (c : Char) : ℕ :=
  if 48 ≤ c.toNat ∧ c.toNat ≤ 57 then c.toNat - 48
  else if 97 ≤ c.toNat ∧ c.toNat ≤ 102 then c.toNat - 87
  else if 65 ≤ c.toNat ∧ c.toNat ≤ 70 then c.toNat - 55
  else 99

/-- Whether a character is a digit of the given base. -/
def isDigitBase (b : ℕ) (c : Char) : Bool :=
  decide (digitVal c < b)

/-- The number denoted by a digit list in the given base. -/
def natOfDigits (b : ℕ) (l : List Char) : ℕ :=
  l.foldl (fun a c => a * b + digitVal c) 0

/-- Split a leading sign off a numeric literal. -/
def splitSign (l : List Char) : Bool × List Char :=
  match l with
  | c :: r =>
    if c == '-' then (true, r) else if c == '+' then (false, r) else (false, l)
  | [] => (false, [])

/-- Drop the `0x`/`0b` tag Python `int(s, base)` accepts. -/
def dropBaseTag (b : ℕ) (l : List Char) : List Char :=
  match b, l with
  | 16, '0' :: 'x' :: r => r
  | 16, '0' :: 'X' :: r => r
  | 2, '0' :: 'b' :: r => r
  | 2, '0' :: 'B' :: r => r
  | _, r => r

/-- Python `int(s, base)`: optional surrounding whitespace, optional sign,
optional base tag, then one or more digits of the base — anything else (such
as a decimal point) raises `ValueError`, modelled as `none`. -/
def pyIntOfStringBase (b : ℕ) (t : String) : Option ℤ :=
  let l0 := (pyStrip t).data
  let p := splitSign l0
  let l2 := dropBaseTag b p.2
  if l2 ≠ [] ∧ l2.all (isDigitBase b) then
    some ((if p.1 then -1 else 1) * (natOfDigits b l2 : ℤ))
  else none

/-- Python `int(s)`. -/
def pyIntOfString (t : String) : Option ℤ :=
  pyIntOfStringBase 10 t

/-- Python `float(s)` (without exponent notation, which the tests never
use): optional sign, digits, optional fraction. -/
def pyFloatOfString (t : String) : Option ℚ :=
  let l0 := (pyStrip t).data
  let p := splitSign l0
  let ip := p.2.takeWhile (isDigitBase 10)
  let rest := p.2.dropWhile (isDigitBase 10)
  let sgn : ℚ := if p.1 then -1 else 1
  match rest with
  | [] => if ip ≠ [] then some (sgn * (natOfDigits 10 ip : ℚ)) else none
  | c :: r =>
    if c == '.' then
      let fp := r.takeWhile (isDigitBase 10)
      let rest2 := r.dropWhile (isDigitBase 10)
      if rest2 = [] ∧ (ip ≠ [] ∨ fp ≠ []) then
        some (sgn * ((natOfDigits 10 ip : ℚ) +
          (natOfDigits 10 fp : ℚ) / (10 : ℚ) ^ fp.length))
      else none
    else none

/-- `str(type)` for the channel types, as Python prints them. -/
def pyTypeName : PyType → String
  | PyType.TInt => "<class \x27int\x27>"
  | PyType.TFloat => "<class \x27float\x27>"
  | PyType.TStr => "<class \x27str\x27>"
  | PyType.TArr => "<class \x27numpy.ndarray\x27>"
  | PyType.TNone => "<class \x27NoneType\x27>"

/-- The error message `send_value` logs when the text cannot be coerced. -/
def sendErrMsg (s : LineEditState) : String :=
  "Error trying to set data \x27" ++ s.text ++ "\x27 with type \x27" ++
    pyTypeName s.channeltype ++ "\x27"

/-- The coercion of the cleaned display text to the channel's declared type: a
float channel parses a float and divides by the scale, an int channel parses
per display format, and string-like channels pass the text through.  `none`
models the `ValueError` the coercion raises. -/
def coerceSend (s : LineEditState) (t : String) : Option PyValue :=
  match s.channeltype with
  | PyType.TFloat => (pyFloatOfString t).map (fun x => PyValue.PFloat (x / s.scale))
  | PyType.TInt =>
    match s.displayFormat with
    | DisplayFormat.Hex => (pyIntOfStringBase 16 t).map PyValue.PInt
    | DisplayFormat.Binary => (pyIntOfStringBase 2 t).map PyValue.PInt
    | _ => (pyIntOfString t).map PyValue.PInt
  | _ => some (PyValue.PStr t)

/-- Modelled from the spec: `PyDMLineEdit.send_value` (module not in the
snapshot).  The displayed text is cleaned of the unit and coerced to the
channel's declared type; on success the coerced value is emitted on the
channel, while a failed coercion emits nothing and logs the error
(`test_send_value`).  Afterwards focus is cleared and the display re-rendered,
which is where a missing precision surfaces as a raised `ValueError`. -/
def send_value (s : LineEditState) :
    List LogRecord × Except PyError (LineEditState × Option PyValue) :=
  let t := stripUnits s s.text
  match coerceSend s t with
  | some v =>
    (match set_display { s with hasFocus := false } with
     | Except.ok s2 => ([], Except.ok (s2, some v))
     | Except.error e => ([], Except.error e))
  | none =>
    let logs : List LogRecord := [⟨LogLevel.ERROR, sendErrMsg s⟩]
    (match set_display { s with hasFocus := false } with
     | Except.ok s2 => (logs, Except.ok (s2, none))
     | Except.error e => (logs, Except.error e))

/-- `sub` occurs in `s` as a contiguous substring. -/
def containsStr (s sub : String) : Prop :=
  ∃ a b, s = a ++ (sub ++ b)

/-- A numeric value is not Python `None`. -/
theorem pyIsNumeric_ne_none (v : PyValue) (h : pyIsNumeric v = true) :
    v ≠ PyValue.PNone := by
  cases v <;> simp_all [pyIsNumeric, pyNumQ]

/-- Scaling preserves numeric-ness. -/
theorem scaleValue_numeric (v : PyValue) (ct : PyType) (sc : ℚ) :
    pyIsNumeric (scaleValue v ct sc) = pyIsNumeric v := by
  cases v <;> cases ct <;> rfl

/-- Rendering a numeric value in `Default` format with no precision raises
`ValueError`: the format specifier degenerates to `\x7b:.Nonef\x7d`. -/
theorem set_display_prec_none (s : LineEditState) (h1 : s.hasFocus = false)
    (h2 : pyIsNumeric s.value = true) (h3 : s.displayFormat = DisplayFormat.Default)
    (h4 : s.prec = none) : set_display s = Except.error PyError.ValueError := by
  simp [set_display, h1, h3, h4, update_format_string, scaleValue_numeric, h2,
    pyIsNumeric_ne_none s.value h2]

/-- With a known precision and a numeric value, `set_display` succeeds and
stores some rendered text together with the recomputed format string. -/
theorem set_display_ok (s : LineEditState) (p : ℕ) (h1 : s.hasFocus = false)
    (h2 : pyIsNumeric s.value = true) (hp : s.prec = some p) :
    ∃ d : String, set_display s =
      Except.ok { update_format_string s with display := some d, text := d } := by
  rw [set_display]
  rw [if_neg (pyIsNumeric_ne_none s.value h2)]
  rw [if_neg (by rw [h1]; exact Bool.false_ne_true)]
  simp only []
  split
  · next hdf =>
    have hps : (update_format_string s).prec = some p := hp
    rw [hps]
    exact ⟨_, rfl⟩
  · exact ⟨_, rfl⟩

/-- The format string after a successful `set_display` is the recomputed
one. -/
theorem set_display_format_string (X : LineEditState) (p : ℕ) (FS : String)
    (h1 : X.hasFocus = false) (h2 : pyIsNumeric X.value = true)
    (hp : X.prec = some p) (hmk : mk_format_string X = FS) :
    ∃ s2, (set_display X, ([] : List LogRecord)) = (Except.ok s2, []) ∧
      s2.format_string = FS := by
  obtain ⟨d, hd⟩ := set_display_ok X p h1 h2 hp
  rw [hd]
  exact ⟨_, rfl, hmk⟩

/-- Regrouping lemma for the format-string tail: gluing the space onto the
closing `f\x7d` of the specifier. -/
theorem append_fbrace_space (X t : String) :
    (X ++ "f\x7d") ++ (" " ++ t) = (X ++ "f\x7d ") ++ t := by
  have hlit : ("f\x7d") ++ " " = ("f\x7d ") := rfl
  rw [← hlit]
  simp only [String.append_assoc]

/-- C4: `apply_conversion` rejects a conversion with a WARNING-level log when
the current unit is missing (or empty) or when no conversion exists from the
current unit to the requested one, leaving the widget unchanged; for a
compatible conversion the format string becomes `\x7b:.<precision>f\x7d <unit>`. -/
theorem apply_conversion_units (convert : String → String → Option ℚ)
    (s : LineEditState) (target : String) :
    (s.unit = none →
      apply_conversion convert s target = (Except.ok s, [no_units_warning]) ∧
      no_units_warning.level = LogLevel.WARNING) ∧
    (∀ u, s.unit = some u → u ≠ "" → convert u target = none →
      apply_conversion convert s target =
        (Except.ok s, [incompatible_units_warning u target]) ∧
      (incompatible_units_warning u target).level = LogLevel.WARNING) ∧
    (∀ u c p, s.unit = some u → u ≠ "" → convert u target = some c →
      s.prec = some p → pyIsNumeric s.value = true → s.showUnits = true →
      target ≠ "" →
      ∃ s2, apply_conversion convert s target = (Except.ok s2, []) ∧
        s2.format_string = ("\x7b:.") ++ toString p ++ "f\x7d " ++ target) := by
  refine ⟨?_, ?_, ?_⟩
  · intro hu
    rw [apply_conversion, hu]
    exact ⟨rfl, rfl⟩
  · intro u hu hne hconv
    rw [apply_conversion, hu]
    simp only []
    rw [if_neg hne, hconv]
    exact ⟨rfl, rfl⟩
  · intro u c p hu hne hconv hp hnum hshow htarget
    rw [apply_conversion, hu]
    simp only []
    rw [if_neg hne, hconv]
    refine set_display_format_string _ p _ rfl hnum hp ?_
    show mk_format_string
      { update_format_string { s with scale := s.scale * c, unit := some target }
        with hasFocus := false } = _
    rw [mk_format_string]
    have hsu : unitSuffix s.showUnits (some target) = " " ++ target := by
      simp [unitSuffix, hshow, htarget]
    show (if pyIsNumeric s.value = true then ("\x7b:.") ++ precStr s.prec ++ "f\x7d"
      else ("\x7b\x7d")) ++ unitSuffix s.showUnits (some target) = _
    rw [hsu, if_pos hnum, hp]
    exact append_fbrace_space (("\x7b:.") ++ toString p) target

/-- C5: when the displayed text cannot be coerced to the channel's declared
type (here an int channel in `Default` format), `send_value` logs the ERROR
`Error trying to set data ... with type ...`, sends no value on the channel,
and — when no precision is set and the value is numeric — the subsequent
re-rendering raises `ValueError`. -/
theorem send_value_coercion_failure (s : LineEditState)
    (hct : s.channeltype = PyType.TInt)
    (hdf : s.displayFormat = DisplayFormat.Default)
    (hfail : pyIntOfString (stripUnits s s.text) = none) :
    (⟨LogLevel.ERROR, sendErrMsg s⟩ : LogRecord) ∈ (send_value s).1 ∧
    (∀ s2 v, (send_value s).2 = Except.ok (s2, v) → v = none) ∧
    (pyIsNumeric s.value = true → s.prec = none →
      (send_value s).2 = Except.error PyError.ValueError) := by
  have hco : coerceSend s (stripUnits s s.text) = none := by
    rw [coerceSend, hct, hdf, hfail]
    rfl
  rw [send_value, hco]
  refine ⟨?_, ?_, ?_⟩
  · cases hsd : set_display { s with hasFocus := false } <;> simp [hsd]
  · intro s2 v
    cases hsd : set_display { s with hasFocus := false } <;> simp [hsd]
    intro _ hv
    exact hv.symm
  · intro hnum hprec
    have : set_display { s with hasFocus := false } =
        Except.error PyError.ValueError :=
      set_display_prec_none _ rfl hnum hdf hprec
    rw [this]

/-- C6: a numeric channel value arriving at `channelValueChanged` renders as
the value multiplied by the (type-coerced) scale, formatted per the display
format and precision, with the unit appended exactly when `showUnits` is
set; for a float value the scaling is plain multiplication by the scale. -/
theorem channelValueChanged_formats (s : LineEditState) (v : PyValue) (x : ℚ)
    (p : ℕ) (u : String)
    (hv : pyNumQ v = some x) (hf : s.hasFocus = false) (hp : s.prec = some p)
    (hu : s.unit = some u) (hne : u ≠ "") :
    (∀ y, v = PyValue.PFloat y →
      scaleValue v (typeOf v) s.scale = PyValue.PFloat (y * s.scale)) ∧
    ∃ s2, channelValueChanged s v = Except.ok s2 ∧
      s2.display = some
        (renderV s.displayFormat p (scaleValue v (typeOf v) s.scale) ++
          (if s.showUnits then " " ++ u else "")) := by
  have hnum : pyIsNumeric v = true := by
    rw [pyIsNumeric, hv]
    rfl
  constructor
  · intro y hy
    subst hy
    rfl
  · rw [channelValueChanged]
    set s1 : LineEditState := { s with value := v, channeltype := typeOf v }
      with hs1
    have h1num : pyIsNumeric s1.value = true := hnum
    rw [set_display]
    rw [if_neg (pyIsNumeric_ne_none s1.value h1num)]
    rw [if_neg (by show ¬(s.hasFocus = true); rw [hf]; exact Bool.false_ne_true)]
    have hw : pyIsNumeric (scaleValue s1.value s1.channeltype s1.scale) = true := by
      rw [scaleValue_numeric]
      exact h1num
    have hsuf : unitSuffix (update_format_string s1).showUnits
        (update_format_string s1).unit = (if s.showUnits then " " ++ u else "") := by
      show unitSuffix s.showUnits s.unit = _
      rw [hu, unitSuffix]
      cases hsh : s.showUnits <;> simp [hne]
    by_cases hdf : s.displayFormat = DisplayFormat.Default
    · rw [if_pos (by exact ⟨hdf, hw⟩)]
      have : (update_format_string s1).prec = some p := hp
      rw [this]
      refine ⟨_, rfl, ?_⟩
      show some _ = some _
      rw [hsuf]
      have : renderV s.displayFormat p (scaleValue s1.value s1.channeltype s1.scale) =
          formatFixed p (ratOf (scaleValue s1.value s1.channeltype s1.scale)) := by
        rw [hdf, renderV]
        rw [if_pos hw]
      rw [this]
    · rw [if_neg (by intro hcon; exact hdf hcon.1)]
      refine ⟨_, rfl, ?_⟩
      show some _ = some _
      have hgd : (update_format_string s1).prec.getD 0 = p := by
        show s.prec.getD 0 = p
        rw [hp]
        rfl
      rw [hgd]
      have : (if (update_format_string s1).showUnits then
          " " ++ unitDisplay (update_format_string s1).unit else "") =
          (if s.showUnits then " " ++ u else "") := by
        show (if s.showUnits then " " ++ unitDisplay s.unit else "") = _
        rw [hu]
        rfl
      rw [this]
      rfl

/-- C7: a write-access change keeps the widget enabled and makes it read-only
exactly when write access is denied; a disconnected channel puts
`PV is disconnected.` into the tooltip, and a denied write on a connected
channel adds the applicable read-only reason. -/
theorem writeAccessChanged_access (s : LineEditState) (wa : Bool) :
    (writeAccessChanged s wa).enabled = true ∧
    (writeAccessChanged s wa).readOnly = !wa ∧
    (s.connected = false →
      containsStr (writeAccessChanged s wa).toolTip ("PV is disconnected.")) ∧
    (s.connected = true → wa = false → s.app_read_only = true →
      containsStr (writeAccessChanged s wa).toolTip
        ("Running PyDM on Read-Only mode.")) ∧
    (s.connected = true → wa = false → s.app_read_only = false →
      containsStr (writeAccessChanged s wa).toolTip
        ("Access denied by Channel Access Security.")) := by
  refine ⟨rfl, rfl, ?_, ?_, ?_⟩
  · intro hc
    refine ⟨s.base_tooltip, "", ?_⟩
    simp [writeAccessChanged, hc]
  · intro hc hwa hro
    subst hwa
    refine ⟨s.base_tooltip, "", ?_⟩
    simp [writeAccessChanged, hc, hro]
  · intro hc hwa hro
    subst hwa
    refine ⟨s.base_tooltip, "", ?_⟩
    simp [writeAccessChanged, hc, hro]

/-- A concrete line-edit state mirroring the defaults the unit tests set up:
an int channel showing seconds with precision 3 and scale 1. -/
def lineedit0 : LineEditState where
  value := PyValue.PInt 123
  channeltype := PyType.TInt
  displayFormat := DisplayFormat.Default
  prec := some 3
  scale := 1
  unit := some "s"
  showUnits := true
  format_string := ("\x7b\x7d")
  display := none
  text := ""
  hasFocus := false
  connected := true
  write_access := true
  enabled := true
  readOnly := false
  base_tooltip := ""
  toolTip := ""
  app_read_only := false

/-- A line-edit state whose text `123.000 s` cannot be coerced to the int
channel type, with no precision set. -/
def lineedit_badtext : LineEditState :=
  { lineedit0 with text := "123.000 s", prec := none }

/-- A line-edit state with no initial unit. -/
def lineedit_nounit : LineEditState :=
  { lineedit0 with unit := none }

/-- A line-edit state with precision 0, ready for a unit conversion. -/
def lineedit_conv : LineEditState :=
  { lineedit0 with prec := some 0 }

/-- A line-edit state on a disconnected channel. -/
def lineedit_disconnected : LineEditState :=
  { lineedit0 with connected := false }

/-- A concrete unit-conversion table knowing only seconds. -/
def convert0 : String → String → Option ℚ :=
  fun a b => if a = "s" ∧ b = "s" then some 1 else none

/-- Witness for C4 at concrete inputs: a missing unit and an impossible
conversion are rejected with the logged warning, and converting seconds to
seconds with precision 0 yields the format string `\x7b:.0f\x7d s`. -/
theorem apply_conversion_units_witness :
    (apply_conversion convert0 lineedit_nounit ("s") =
        (Except.ok lineedit_nounit, [no_units_warning]) ∧
      no_units_warning.level = LogLevel.WARNING) ∧
    (apply_conversion convert0 lineedit0 ("light years") =
        (Except.ok lineedit0, [incompatible_units_warning ("s") ("light years")]) ∧
      (incompatible_units_warning ("s") ("light years")).level =
        LogLevel.WARNING) ∧
    (∃ s2, apply_conversion convert0 lineedit_conv ("s") = (Except.ok s2, []) ∧
      s2.format_string = ("\x7b:.") ++ toString 0 ++ "f\x7d " ++ "s") :=
  ⟨(apply_conversion_units convert0 lineedit_nounit ("s")).1 rfl,
   (apply_conversion_units convert0 lineedit0 ("light years")).2.1 "s" rfl
     (by decide) (by decide),
   (apply_conversion_units convert0 lineedit_conv ("s")).2.2 "s" 1 0 rfl
     (by decide) (by decide) rfl rfl rfl (by decide)⟩

/-- Witness for C5 at a concrete input: the text `123.000 s` on an int channel
logs the coercion error, sends nothing, and with no precision set the call
raises `ValueError`. -/
theorem send_value_coercion_failure_witness :
    (⟨LogLevel.ERROR, sendErrMsg lineedit_badtext⟩ : LogRecord) ∈
      (send_value lineedit_badtext).1 ∧
    (∀ s2 v, (send_value lineedit_badtext).2 = Except.ok (s2, v) → v = none) ∧
    (send_value lineedit_badtext).2 = Except.error PyError.ValueError := by
  have h := send_value_coercion_failure lineedit_badtext rfl rfl (by decide)
  exact ⟨h.1, h.2.1, h.2.2 rfl rfl⟩

/-- Witness for C6 at a concrete input: the value 123 with precision 3, scale
1 and unit seconds renders through `channelValueChanged`. -/
theorem channelValueChanged_formats_witness :
    (∀ y, PyValue.PInt 123 = PyValue.PFloat y →
      scaleValue (PyValue.PInt 123) (typeOf (PyValue.PInt 123)) lineedit0.scale =
        PyValue.PFloat (y * lineedit0.scale)) ∧
    ∃ s2, channelValueChanged lineedit0 (PyValue.PInt 123) = Except.ok s2 ∧
      s2.display = some
        (renderV lineedit0.displayFormat 3
          (scaleValue (PyValue.PInt 123) (typeOf (PyValue.PInt 123))
            lineedit0.scale) ++
          (if lineedit0.showUnits then " " ++ "s" else "")) :=
  channelValueChanged_formats lineedit0 (PyValue.PInt 123) 123 3 "s"
    (by simp [pyNumQ]) rfl rfl rfl (by decide)

/-- Witness for C7 at a concrete input: after a write-access notification on a
disconnected channel the widget is enabled, not read-only, and the tooltip
holds the disconnection notice. -/
theorem writeAccessChanged_access_witness :
    (writeAccessChanged lineedit_disconnected true).enabled = true ∧
    (writeAccessChanged lineedit_disconnected true).readOnly = !true ∧
    containsStr (writeAccessChanged lineedit_disconnected true).toolTip
      ("PV is disconnected.") :=
  ⟨(writeAccessChanged_access lineedit_disconnected true).1,
   (writeAccessChanged_access lineedit_disconnected true).2.1,
   (writeAccessChanged_access lineedit_disconnected true).2.2.1 rfl⟩

/-- A grayscale image array handed to the viewer by the data plugin. -/
def Image : Type :=
  List (List ℚ)

/-- A blob found by `skimage.feature.blob_doh`: row, column, size. -/
structure Blob where
  x : ℚ
  y : ℚ
  size : ℚ
deriving DecidableEq, Repr

/-- A pyqtgraph pen: an RGB colour and a width. -/
structure Pen where
  color : ℕ × ℕ × ℕ
  width : ℚ
deriving DecidableEq, Repr

/-- `pyqtgraph.mkPen`. -/
def mkPen (c : ℕ × ℕ × ℕ) (width : ℚ) : Pen :=
  ⟨c, width⟩

/-- An `ImageMarker` item placed on the image view: position, size, pen. -/
structure ImageMarker where
  pos : ℚ × ℚ
  size : ℚ
  pen : Pen
deriving DecidableEq, Repr

/-- The display state of `ImageViewer` in
`examples/image_processing/image_view.py`: the tracked marker list, the items
currently on the image view, and the blob-count label. -/
structure ViewerState where
  markers : List ImageMarker
  view_items : List ImageMarker
  numBlobsLabel : String
deriving DecidableEq, Repr

/-- The marker built for one blob in `process_image`: position `(y, x)`, the
blob size, and the fixed blue pen of width 3. -/
def markerOfBlob (b : Blob) : ImageMarker :=
  ⟨(b.y, b.x), b.size, mkPen (100, 100, 255) 3⟩

/-- `ImageViewer.process_image` from
`examples/image_processing/image_view.py`, with the external detector
`blob_doh(image, max_sigma, min_sigma, threshold)` as a parameter: detect
blobs with `max_sigma=512, min_sigma=64, threshold=.02`, remove the previous
markers from the view, add one marker per blob, set the blob-count label, and
return the original image. -/
def process_image (blob_doh : Image → ℚ → ℚ → ℚ → List Blob)
    (s : ViewerState) (new_image : Image) : ViewerState × Image :=
  let blobs := blob_doh new_image 512 64 (2 / 100)
  let view := s.markers.foldl (fun v m => v.erase m) s.view_items
  let new_markers := blobs.map markerOfBlob
  ({ markers := new_markers,
     view_items := view ++ new_markers,
     numBlobsLabel := toString blobs.length }, new_image)

/-- C10: `process_image` returns the input image unchanged, replaces the
markers with exactly one marker per detected blob (the previous markers
being removed from the view), and sets the blob-count label to the number of
detected blobs. -/
theorem process_image_markers (blob_doh : Image → ℚ → ℚ → ℚ → List Blob)
    (s : ViewerState) (img : Image) :
    (process_image blob_doh s img).2 = img ∧
    (process_image blob_doh s img).1.markers =
      (blob_doh img 512 64 (2 / 100)).map markerOfBlob ∧
    (process_image blob_doh s img).1.numBlobsLabel =
      toString (blob_doh img 512 64 (2 / 100)).length ∧
    (process_image blob_doh s img).1.view_items =
      (s.markers.foldl (fun v m => v.erase m) s.view_items) ++
        (blob_doh img 512 64 (2 / 100)).map markerOfBlob :=
  ⟨rfl, rfl, rfl, rfl⟩

end Pydm
